import Mathlib

/-!
Verification of the 100Waves procedural world generator.

Shallow embedding of the TypeScript sources:
  * `src/utils/world/noiseGenerator.ts`   (seeded lattice noise with memoization)
  * `src/utils/world/worldGenerator.ts`   (biome classifier, tile/block/chunk generation)
  * `src/utils/world/biomeConfig.ts`      (palette lookup)
  * `src/components/GameWorld/GameWorld.tsx` (visible-chunk computation, load/evict pass)
  * `src/rendering/RenderOptimizer.ts`    (viewport bounds)

Modelling conventions:
  * JavaScript numbers are modelled as exact rationals (`ℚ`); loop indices and
    world coordinates that are always integral are modelled as `ℕ`/`ℤ`.
  * JavaScript 32-bit operations (`^`, `>>>`, `&`, `<<`) are modelled exactly on
    unbounded integers reduced mod 2^32 (`jsToUint32` / `jsToInt32`).  The source
    multiplies a 32-bit value by 1274126177 producing up to 62 bits, which
    float64 may round; the model keeps the product exact.
  * `Math.sqrt(x*x + y*y) < c` for integer `x, y, c` is equivalent to
    `x^2 + y^2 < c^2` (and `> c` to `> c^2`); the classifier models these
    comparisons in squared form to stay inside `ℚ`.  Where the *value* of the
    square root is used (the zombie-weight distance multiplier) the distance is
    taken as an explicit argument `d`, constrained in theorems by `0 ≤ d` and
    `d * d = x^2 + y^2`.
-/

/-! ## JavaScript 32-bit primitives -/

/-- JS `ToUint32`: reduce an integer into `[0, 2^32)`. -/
def jsToUint32 (n : ℤ) : ℕ := (n % 4294967296).toNat

/-- JS `ToInt32`: reduce an integer into `[-2^31, 2^31)`. -/
def jsToInt32 (n : ℤ) : ℤ :=
  let m := n % 4294967296
  if m < 2147483648 then m else m - 4294967296

/-- JS `a ^ b` on numbers: 32-bit xor returning a signed 32-bit integer. -/
def jsXor (a b : ℤ) : ℤ := jsToInt32 (Nat.xor (jsToUint32 a) (jsToUint32 b) : ℕ)

/-- JS `a >>> k`: unsigned 32-bit right shift (result is nonnegative). -/
def jsShru (a : ℤ) (k : ℕ) : ℤ := ((jsToUint32 a) >>> k : ℕ)

/-! ## `world.types.ts`: the closed biome enumeration and its metadata -/

/-- The `TileType` union from `src/types/world.types.ts` (28 members). -/
inductive TileType where
  | grasslands | plains | forest
  | river | ocean | deep_ocean
  | swamp | wasteland
  | ruins | bunker
  | snowy_plains | frozen_ocean | deep_frozen_ocean | taiga | snowy_taiga | tundra
  | desert | badlands | canyon
  | oasis | coral_reef | mangrove | jungle
  | mountain | caves | mines
  | dead_zone | infection_site
  deriving DecidableEq, Repr

/-- All 28 members of the closed `TileType` enumeration. -/
def allTileTypes : List TileType :=
  [.grasslands, .plains, .forest, .river, .ocean, .deep_ocean, .swamp, .wasteland,
   .ruins, .bunker, .snowy_plains, .frozen_ocean, .deep_frozen_ocean, .taiga,
   .snowy_taiga, .tundra, .desert, .badlands, .canyon, .oasis, .coral_reef,
   .mangrove, .jungle, .mountain, .caves, .mines, .dead_zone, .infection_site]

inductive BiomeRarity where
  | common | uncommon | rare | epic | legendary
  deriving DecidableEq, Repr

/-- The `BIOME_RARITY` table from `src/types/world.types.ts`. -/
def BIOME_RARITY : TileType → BiomeRarity
  | .grasslands => .common
  | .plains => .common
  | .forest => .common
  | .river => .common
  | .ocean => .common
  | .deep_ocean => .common
  | .swamp => .uncommon
  | .wasteland => .rare
  | .ruins => .uncommon
  | .bunker => .epic
  | .snowy_plains => .uncommon
  | .frozen_ocean => .uncommon
  | .deep_frozen_ocean => .uncommon
  | .taiga => .uncommon
  | .snowy_taiga => .rare
  | .tundra => .rare
  | .desert => .uncommon
  | .badlands => .rare
  | .canyon => .rare
  | .oasis => .epic
  | .coral_reef => .rare
  | .mangrove => .rare
  | .jungle => .rare
  | .mountain => .uncommon
  | .caves => .rare
  | .mines => .epic
  | .dead_zone => .legendary
  | .infection_site => .legendary

/-! ## `noiseGenerator.ts` -/

namespace NoiseGenerator

/-- `hashString` from `noiseGenerator.ts`: `hash = ((hash << 5) - hash) + code`,
    coerced to int32 each round (`hash = hash & hash`).  Characters are taken as
    their code points (identical to UTF-16 code units for ASCII seeds). -/
def hashString (s : String) : ℤ :=
  s.toList.foldl (fun h c => jsToInt32 (jsToInt32 (h * 32) - h + c.toNat)) 0

/-- The integer pipeline of the private `hash(x, y, offset)` method up to and
    including the mask `n & 0x7fffffff`.  For an int32 `n`, `n & 0x7fffffff`
    equals `n % 2^31` (mod 2^32 reduction followed by clearing bit 31). -/
def hashInt (seed x y offset : ℤ) : ℤ :=
  let n0 : ℤ := x * 374761393 + y * 668265263 + offset * 1911520717 + seed
  let n1 : ℤ := jsXor n0 (jsShru n0 13) * 1274126177
  let n2 : ℤ := jsXor n1 (jsShru n1 16)
  n2 % 2147483648

/-- The private `hash(x, y, offset)` lattice hash: the integer mix followed by
    `(masked / 0x7fffffff) * 2 - 1`. -/
def hash (seed x y offset : ℤ) : ℚ :=
  ((hashInt seed x y offset : ℤ) : ℚ) / 2147483647 * 2 - 1

/-- The quintic fade `t³(t(6t−15)+10)` from `noiseGenerator.ts`. -/
def fade (t : ℚ) : ℚ := t * t * t * (t * (t * 6 - 15) + 10)

/-- Cache-free recomputation of `noise(x, y, offset)`: bilinear interpolation of
    the four enclosing lattice-corner hashes with fade-eased weights. -/
def noisePure (seed : ℤ) (x y : ℚ) (offset : ℤ) : ℚ :=
  let X : ℤ := ⌊x⌋
  let Y : ℤ := ⌊y⌋
  let xf : ℚ := x - X
  let yf : ℚ := y - Y
  let n00 := hash seed X Y offset
  let n10 := hash seed (X + 1) Y offset
  let n01 := hash seed X (Y + 1) offset
  let n11 := hash seed (X + 1) (Y + 1) offset
  let u := fade xf
  let v := fade yf
  let nx0 := n00 + u * (n10 - n00)
  let nx1 := n01 + u * (n11 - n01)
  nx0 + v * (nx1 - nx0)

/-- One component of the memoization key: JS `q.toFixed(3)`.  The spec of
    `Number.prototype.toFixed` rounds the magnitude half-up to 3 decimals and
    prepends the sign, so the string is captured exactly by the pair
    (rounded magnitude in thousandths, sign flag); `-0.0004` gives `"-0.000"`,
    distinct from `"0.000"`. -/
def toFixed3 (q : ℚ) : ℤ × Bool := (⌊|q| * 1000 + 1/2⌋, decide (q < 0))

/-- The `Map` key `"x.toFixed(3),y.toFixed(3),offset"`. -/
def cacheKey (x y : ℚ) (offset : ℤ) : (ℤ × Bool) × (ℤ × Bool) × ℤ :=
  (toFixed3 x, toFixed3 y, offset)

/-- The memoization cache, in `Map` insertion order. -/
abbrev Cache := List (((ℤ × Bool) × (ℤ × Bool) × ℤ) × ℚ)

/-- `Map.get` on the cache model. -/
def cacheGet (k : (ℤ × Bool) × (ℤ × Bool) × ℤ) : Cache → Option ℚ
  | [] => none
  | e :: es => if e.1 = k then some e.2 else cacheGet k es

/-- `noise(x, y, offset)` with the memoization cache of `noiseGenerator.ts`:
    return a cached value when the key is present; otherwise, if the cache holds
    more than `CACHE_LIMIT = 10000` entries drop the older half, then compute,
    store and return the bilinear value. -/
def noise (seed : ℤ) (c : Cache) (x y : ℚ) (offset : ℤ) : ℚ × Cache :=
  let k := cacheKey x y offset
  match cacheGet k c with
  | some v => (v, c)
  | none =>
    let c1 : Cache := if 10000 < (c : List _).length
      then (c : List _).drop ((c : List _).length / 2) else c
    let r := noisePure seed x y offset
    (r, c1 ++ [(k, r)])

/-- `clearCache`. -/
def clearCache (_ : Cache) : Cache := []

/-- Run a sequence of `noise` calls against the memoization cache, collecting
    the returned values. -/
def runNoise (seed : ℤ) : Cache → List (ℚ × ℚ × ℤ) → List ℚ
  | _, [] => []
  | c, q :: qs =>
    let (r, c') := noise seed c q.1 q.2.1 q.2.2
    r :: runNoise seed c' qs

/-- Cache-free value of one queued call. -/
def noisePureAt (seed : ℤ) (q : ℚ × ℚ × ℤ) : ℚ := noisePure seed q.1 q.2.1 q.2.2

/-- Key of one queued call. -/
def cacheKeyAt (q : ℚ × ℚ × ℤ) : (ℤ × Bool) × (ℤ × Bool) × ℤ :=
  cacheKey q.1 q.2.1 q.2.2

end NoiseGenerator

/-! ## `worldGenerator.ts` -/

/-- The `BiomeWeights` record. -/
structure BiomeWeights where
  temperature : ℚ
  moisture : ℚ
  elevation : ℚ
  contamination : ℚ
  deriving DecidableEq, Repr

/-- The fields of `WorldConfig` used by generation. -/
structure WorldConfig where
  chunkSize : ℕ
  tileSize : ℚ
  blockSize : ℚ
  blocksPerTile : ℕ
  viewDistance : ℤ
  deriving Repr

/-- `DEFAULT_WORLD_CONFIG` (the generation-relevant fields). -/
def DEFAULT_WORLD_CONFIG : WorldConfig :=
  { chunkSize := 12, tileSize := 128, blockSize := 8, blocksPerTile := 16, viewDistance := 1 }

/-- A generated `Block`. -/
structure Block where
  type : TileType
  x : ℤ
  y : ℤ
  blendFactor : ℚ
  elevation : ℚ
  zombieSpawnWeight : ℚ
  deriving Repr

/-- A generated `Tile`. -/
structure Tile where
  type : TileType
  x : ℤ
  y : ℤ
  variant : ℤ
  blocks : List (List Block)
  elevation : ℚ
  isExplored : Bool
  hasStructure : Bool
  deriving Repr

/-- A generated `Chunk`. -/
structure Chunk where
  x : ℤ
  y : ℤ
  tiles : List (List Tile)
  threatLevel : ℚ
  deriving Repr

namespace WorldGenerator

/-- `spawnSafeZoneRadius = 50` (blocks). -/
def spawnSafeZoneRadius : ℤ := 50

/-- `getBiomeWeights(x, y)`: multi-octave noise per channel (inputs arrive
    pre-scaled by the callers, exactly as in the source). -/
def getBiomeWeights (seed : ℤ) (x y : ℚ) : BiomeWeights :=
  let temp1 := NoiseGenerator.noisePure seed (x * 0.8) (y * 0.8) 1000
  let temp2 := NoiseGenerator.noisePure seed (x * 2.0) (y * 2.0) 1100
  let moist1 := NoiseGenerator.noisePure seed (x * 1.0) (y * 1.0) 2000
  let moist2 := NoiseGenerator.noisePure seed (x * 2.5) (y * 2.5) 2100
  let elev1 := NoiseGenerator.noisePure seed (x * 0.6) (y * 0.6) 3000
  let elev2 := NoiseGenerator.noisePure seed (x * 1.8) (y * 1.8) 3100
  let cont1 := NoiseGenerator.noisePure seed (x * 1.2) (y * 1.2) 4000
  let cont2 := NoiseGenerator.noisePure seed (x * 3.5) (y * 3.5) 4100
  { temperature := temp1 * 0.6 + temp2 * 0.4
    moisture := moist1 * 0.6 + moist2 * 0.4
    elevation := elev1 * 0.7 + elev2 * 0.3
    contamination := cont1 * 0.7 + cont2 * 0.3 }

/-- The classification cascade of `determineBiome(weights, blockX, blockY)` as a
    function of the weight vector, the squared distance from spawn
    `s = blockX² + blockY²` and the eight noise samples the source draws
    (`rn` is the low-frequency rarity sample, `gNNNN` the secondary gate sample
    on channel NNNN).  Early returns inside the source's guarded blocks are
    flattened into an if-else cascade with the block guard conjoined to each
    inner condition, preserving fall-through; `inSafeZone` is `s < 2500`
    (`distanceFromSpawn < 50` in squared form, written `s < 2500` at each use)
    and the distance comparisons `> 15000` / `> 200` become `s > 225000000` /
    `s > 40000`. -/
def biomeCascade (w : BiomeWeights) (s : ℤ)
    (rn g6000 g6100 g6200 g6300 g6400 g7000 g8000 : ℚ) : TileType :=
  -- LEGENDARY APOCALYPTIC BIOMES (extremely rare, far from spawn)
  if (¬ s < 2500 ∧ 225000000 < s) ∧ (0.75 < w.contamination ∧ 0.85 < rn) then .infection_site
  else if (¬ s < 2500 ∧ 225000000 < s) ∧
      (0.7 < w.contamination ∧ w.elevation < -0.3 ∧ 0.82 < rn) then .dead_zone
  -- EPIC BIOMES (very rare)
  else if (¬ s < 2500 ∧ 0.72 < rn) ∧
      (0.5 < w.elevation ∧ w.moisture < 0 ∧ 0.7 < g6000) then .bunker
  else if (¬ s < 2500 ∧ 0.72 < rn) ∧
      (0.6 < w.elevation ∧ w.moisture < -0.15 ∧ 0.65 < g6100) then .mines
  else if (¬ s < 2500 ∧ 0.72 < rn) ∧ (0.4 < w.moisture ∧ w.elevation < -0.2 ∧
      0.3 < w.temperature ∧ w.temperature < 0.7 ∧ 0.6 < g6200) then .oasis
  -- RARE BIOMES
  else if 0.55 < rn ∧ w.elevation < -0.45 then .caves
  else if 0.55 < rn ∧ (0.45 < w.temperature ∧ 0.55 < w.moisture ∧
      -0.15 < w.elevation ∧ w.elevation < 0.35) then .jungle
  else if 0.55 < rn ∧ (0.45 < w.moisture ∧ -0.12 < w.elevation ∧
      w.elevation < 0.05 ∧ 0.15 < w.temperature) then .mangrove
  else if 0.55 < rn ∧ (w.elevation < -0.08 ∧ -0.28 < w.elevation ∧ 0.35 < w.temperature) ∧
      0.45 < g6300 then .coral_reef
  else if 0.55 < rn ∧ (0.35 < w.temperature ∧ w.moisture < -0.25 ∧
      0.25 < w.elevation ∧ w.elevation < 0.55) then .badlands
  else if 0.55 < rn ∧ (0.35 < w.temperature ∧ w.moisture < -0.45 ∧
      -0.08 < w.elevation ∧ w.elevation < 0.35) then .wasteland
  else if 0.55 < rn ∧ (w.temperature < -0.25 ∧ 0.05 < w.moisture ∧
      0.15 < w.elevation ∧ w.elevation < 0.45) then .snowy_taiga
  else if 0.55 < rn ∧ (w.temperature < -0.35 ∧ w.moisture < 0.05 ∧
      0.05 < w.elevation) then .tundra
  -- Canyons in desert regions
  else if 0.55 < rn ∧ (0.4 < w.temperature ∧ w.moisture < -0.3 ∧
      0.3 < w.elevation ∧ w.elevation < 0.6) ∧ 0.6 < g6400 then .canyon
  -- RUINS (common in mid-range, avoid safe zone)
  else if (¬ s < 2500 ∧ 40000 < s ∧ 0.2 < w.contamination) ∧ 0.68 < g7000 then .ruins
  -- WATER BIOMES (elevation-based)
  else if w.elevation < -0.55 then
    (if w.temperature < -0.25 then .deep_frozen_ocean else .deep_ocean)
  else if w.elevation < -0.32 then
    (if w.temperature < -0.25 then .frozen_ocean else .ocean)
  else if w.elevation < -0.18 ∧ -0.32 < w.elevation then .river
  -- MOUNTAIN
  else if 0.58 < w.elevation then .mountain
  -- COLD BIOMES
  else if w.temperature < -0.25 ∧ (0.25 < w.moisture ∧ 0.12 < w.elevation) then .taiga
  else if w.temperature < -0.25 ∧ w.elevation < 0.12 then .snowy_plains
  else if w.temperature < -0.25 then .tundra
  -- HOT/DRY BIOMES
  else if 0.35 < w.temperature ∧ w.moisture < -0.35 then .desert
  else if 0.35 < w.temperature ∧ (0.25 < w.moisture ∧ w.elevation < 0.15) then .plains
  -- TEMPERATE BIOMES
  else if (0.28 < w.moisture ∧ -0.08 < w.elevation ∧ w.elevation < 0.25) ∧
      0.25 < g8000 then .forest
  else if 0.48 < w.moisture ∧ -0.08 < w.elevation ∧ w.elevation < 0.12 then .swamp
  else if w.moisture < -0.15 ∧ -0.45 < w.moisture ∧ -0.08 < w.elevation ∧ w.elevation < 0.35 then .plains
  else .grasslands

/-- `determineBiome(weights, blockX, blockY)`: draw the rarity sample and the
    secondary gate samples at the source's scales and channels and run the
    classification cascade. -/
def determineBiome (seed : ℤ) (w : BiomeWeights) (blockX blockY : ℤ) : TileType :=
  biomeCascade w (blockX * blockX + blockY * blockY)
    (NoiseGenerator.noisePure seed ((blockX : ℚ) * 0.008) ((blockY : ℚ) * 0.008) 5000)
    (NoiseGenerator.noisePure seed ((blockX : ℚ) * 0.05) ((blockY : ℚ) * 0.05) 6000)
    (NoiseGenerator.noisePure seed ((blockX : ℚ) * 0.07) ((blockY : ℚ) * 0.07) 6100)
    (NoiseGenerator.noisePure seed ((blockX : ℚ) * 0.04) ((blockY : ℚ) * 0.04) 6200)
    (NoiseGenerator.noisePure seed ((blockX : ℚ) * 0.09) ((blockY : ℚ) * 0.09) 6300)
    (NoiseGenerator.noisePure seed ((blockX : ℚ) * 0.06) ((blockY : ℚ) * 0.06) 6400)
    (NoiseGenerator.noisePure seed ((blockX : ℚ) * 0.03) ((blockY : ℚ) * 0.03) 7000)
    (NoiseGenerator.noisePure seed ((blockX : ℚ) * 0.05) ((blockY : ℚ) * 0.05) 8000)

/-- `getElevation(x, y)` at tile granularity. -/
def getElevation (seed : ℤ) (x y : ℤ) : ℚ :=
  let scale : ℚ := 0.012
  let elev1 := NoiseGenerator.noisePure seed ((x : ℚ) * scale * 0.6) ((y : ℚ) * scale * 0.6) 3000
  let elev2 := NoiseGenerator.noisePure seed ((x : ℚ) * scale * 1.8) ((y : ℚ) * scale * 1.8) 3100
  elev1 * 0.7 + elev2 * 0.3

/-- `getTileType(x, y)`: classify at tile-granularity scale; the classifier is
    invoked at world coordinates `(x*16, y*16)` (16 hard-coded in the source). -/
def getTileType (seed : ℤ) (x y : ℤ) : TileType :=
  let scale : ℚ := 0.012
  let weights := getBiomeWeights seed ((x : ℚ) * scale) ((y : ℚ) * scale)
  determineBiome seed weights (x * 16) (y * 16)

/-- `getTileVariant(x, y, type)`: `Math.floor((hash + 1) * 0.5 * 6)`. -/
def getTileVariant (seed : ℤ) (x y : ℤ) (_ : TileType) : ℤ :=
  let h := NoiseGenerator.noisePure seed ((x : ℚ) * 0.08) ((y : ℚ) * 0.08) 9000
  ⌊(h + 1) * 0.5 * 6⌋

/-- `calculateBlendFactor(weights)`: `Math.min(1, min(boundary distances) * 10)`. -/
def calculateBlendFactor (w : BiomeWeights) : ℚ :=
  let boundaries : List ℚ :=
    [|w.elevation + 0.55|, |w.elevation + 0.32|, |w.elevation - 0.58|,
     |w.temperature + 0.25|, |w.temperature - 0.35|,
     |w.moisture + 0.28|, |w.moisture - 0.28|]
  let minDistance := boundaries.foldr min (|w.elevation + 0.55|)
  min 1 (minDistance * 10)

/-- The partial `baseWeights` record of `calculateZombieSpawnWeight`
    (`baseWeights[biomeType] ?? 0.5`). -/
def zombieBaseWeight : TileType → ℚ
  | .grasslands => 0.5
  | .plains => 0.4
  | .forest => 0.7
  | .swamp => 0.9
  | .wasteland => 1.0
  | .ruins => 1.0
  | .bunker => 0.1
  | .jungle => 0.8
  | .caves => 0.95
  | .dead_zone => 1.0
  | .infection_site => 1.0
  | .desert => 0.4
  | .mountain => 0.3
  | .snowy_plains => 0.5
  | .tundra => 0.3
  | .oasis => 0.2
  | .river => 0.1
  | .ocean => 0.0
  | _ => 0.5

/-- `calculateZombieSpawnWeight(biomeType, blockX, blockY)`.  The safe-zone
    comparison `Math.sqrt(x² + y²) < 50` is modelled in squared form; the
    distance multiplier uses the square root's value, so the distance `d`
    (the source's `distanceFromSpawn`) is an explicit argument, constrained in
    theorems by `0 ≤ d` and `d * d = x² + y²`. -/
def calculateZombieSpawnWeight (biomeType : TileType) (blockX blockY : ℤ) (d : ℚ) : ℚ :=
  if blockX * blockX + blockY * blockY < 2500 then 0.1
  else zombieBaseWeight biomeType * min 2.0 (0.5 + d / 1000)

/-- The partial `structureChance` record of `shouldGenerateStructure`
    (`structureChance[biomeType] ?? 0`). -/
def structureChance : TileType → ℚ
  | .ruins => 0.4
  | .bunker => 0.8
  | .wasteland => 0.2
  | .plains => 0.05
  | .grasslands => 0.03
  | .desert => 0.08
  | .forest => 0.06
  | _ => 0

/-- `shouldGenerateStructure(tileX, tileY, biomeType)`. -/
def shouldGenerateStructure (seed : ℤ) (tileX tileY : ℤ) (biomeType : TileType) : Bool :=
  let chance := structureChance biomeType
  if chance = 0 then false
  else decide ((NoiseGenerator.noisePure seed ((tileX : ℚ) * 0.02) ((tileY : ℚ) * 0.02) 10000 + 1) * 0.5 < chance)

/-- The partial `threatLevels` record of `getTileThreatLevel`
    (`threatLevels[biomeType] ?? 0.5`). -/
def getTileThreatLevel : TileType → ℚ
  | .grasslands => 0.3
  | .plains => 0.2
  | .forest => 0.5
  | .swamp => 0.8
  | .wasteland => 1.0
  | .ruins => 1.0
  | .bunker => 0.0
  | .jungle => 0.7
  | .caves => 0.95
  | .dead_zone => 1.0
  | .infection_site => 1.0
  | .desert => 0.4
  | .mountain => 0.2
  | .snowy_plains => 0.4
  | .river => 0.1
  | .ocean => 0.0
  | _ => 0.5

/-- `getBlockTypeWithBlending(blockX, blockY)` returning
    `(type, blendFactor, elevation)`. -/
def getBlockTypeWithBlending (seed : ℤ) (blockX blockY : ℤ) : TileType × ℚ × ℚ :=
  let scale : ℚ := 0.012
  let weights := getBiomeWeights seed ((blockX : ℚ) * scale) ((blockY : ℚ) * scale)
  let biome := determineBiome seed weights blockX blockY
  (biome, calculateBlendFactor weights, weights.elevation)

/-- `generateTileWithBlocks(tileX, tileY)`.  `dist x y` stands for the source's
    `Math.sqrt(x² + y²)` at world block coordinates (irrational in general, so
    supplied as a parameter; theorems constrain it pointwise). -/
def generateTileWithBlocks (cfg : WorldConfig) (seed : ℤ) (dist : ℤ → ℤ → ℚ)
    (tileX tileY : ℤ) : Tile :=
  let bpt := cfg.blocksPerTile
  let tileElevation := getElevation seed tileX tileY
  let blocks : List (List Block) :=
    (List.range bpt).map (fun (b_y : ℕ) =>
      (List.range bpt).map (fun (bx : ℕ) =>
        let blockWorldX : ℤ := tileX * (bpt : ℤ) + (bx : ℤ)
        let blockWorldY : ℤ := tileY * (bpt : ℤ) + (b_y : ℤ)
        let bt := getBlockTypeWithBlending seed blockWorldX blockWorldY
        { type := bt.1
          x := blockWorldX
          y := blockWorldY
          blendFactor := bt.2.1
          elevation := bt.2.2
          zombieSpawnWeight :=
            calculateZombieSpawnWeight bt.1 blockWorldX blockWorldY (dist blockWorldX blockWorldY) }))
  let dominantType := getTileType seed tileX tileY
  { type := dominantType
    x := tileX
    y := tileY
    variant := getTileVariant seed tileX tileY dominantType
    blocks := blocks
    elevation := tileElevation
    isExplored := false
    hasStructure := shouldGenerateStructure seed tileX tileY dominantType }

/-- `generateChunk(chunkX, chunkY)`. -/
def generateChunk (cfg : WorldConfig) (seed : ℤ) (dist : ℤ → ℤ → ℚ)
    (chunkX chunkY : ℤ) : Chunk :=
  let chunkSize := cfg.chunkSize
  let worldOffsetX : ℤ := chunkX * chunkSize
  let worldOffsetY : ℤ := chunkY * chunkSize
  let tiles : List (List Tile) :=
    (List.range chunkSize).map (fun (y : ℕ) =>
      (List.range chunkSize).map (fun (x : ℕ) =>
        generateTileWithBlocks cfg seed dist (worldOffsetX + (x : ℤ)) (worldOffsetY + (y : ℤ))))
  let totalThreat : ℚ :=
    tiles.foldl (fun acc row => row.foldl (fun a t => a + getTileThreatLevel t.type) acc) 0
  { x := chunkX
    y := chunkY
    tiles := tiles
    threatLevel := totalThreat / (chunkSize * chunkSize) }

end WorldGenerator

/-! ## `biomeConfig.ts` -/

namespace BiomeConfig

/-- The `TILE_COLORS` object literal from `biomeConfig.ts`, restricted to keys
    that are `TileType` members.  Despite its `Record<TileType, string[]>`
    annotation the literal has no entry for `ruins`, `bunker`, `wasteland`,
    `canyon`, `dead_zone` or `infection_site` (it instead carries the non-member
    keys `wastelands`, `savanna`, `wooded_badlands`, `ashlands` and
    `molten_wastes`), so the lookup is partial: `none` models the `undefined`
    obtained for the missing keys. -/
def TILE_COLORS : TileType → Option (List String)
  | .grasslands => some ["#4a7c4a", "#4b7d4b", "#4c7e4c", "#4d7f4d", "#4e804e", "#4f814f"]
  | .plains => some ["#7a9a5a", "#7b9b5b", "#7c9c5c", "#7d9d5d", "#7e9e5e"]
  | .forest => some ["#2d5a2d", "#2e5b2e", "#2f5c2f", "#305d30", "#315e31", "#326032"]
  | .swamp => some ["#3d4d3a", "#3e4e3b", "#3f4f3c", "#40503d"]
  | .river => some ["#4a7a9a", "#4b7b9b", "#4c7c9c", "#4d7d9d"]
  | .ocean => some ["#2d5d7d", "#2e5e7e", "#2f5f7f", "#306080"]
  | .deep_ocean => some ["#1a3a5a", "#1b3b5b", "#1c3c5c", "#1d3d5d"]
  | .coral_reef => some ["#4a8a8a", "#5a9a7a", "#6aaa8a", "#7aba9a"]
  | .snowy_plains => some ["#e8f0f8", "#e9f1f9", "#eaf2fa", "#ebf3fb"]
  | .frozen_ocean => some ["#6a8aaa", "#6b8bab", "#6c8cac", "#6d8dad"]
  | .deep_frozen_ocean => some ["#4a6a8a", "#4b6b8b", "#4c6c8c", "#4d6d8d"]
  | .taiga => some ["#3a5a4a", "#3b5b4b", "#3c5c4c", "#3d5d4d", "#3e5e4e"]
  | .snowy_taiga => some ["#5a7a7a", "#5b7b7b", "#5c7c7c", "#5d7d7d"]
  | .tundra => some ["#c0d0e0", "#c1d1e1", "#c2d2e2", "#c3d3e3"]
  | .desert => some ["#d4b896", "#d5b997", "#d6ba98", "#d7bb99", "#d8bc9a"]
  | .badlands => some ["#a85a3a", "#a95b3b", "#aa5c3c", "#ab5d3d", "#ac5e3e"]
  | .oasis => some ["#5aaa7a", "#5bab7b", "#5cac7c", "#5dad7d"]
  | .mangrove => some ["#4a6a4a", "#4b6b4b", "#4c6c4c", "#4d6d4d"]
  | .jungle => some ["#2a4a2a", "#2b4b2b", "#2c4c2c", "#2d4d2d", "#2e4e2e", "#2f4f2f"]
  | .mountain => some ["#7a7a7a", "#7b7b7b", "#7c7c7c", "#7d7d7d", "#7e7e7e"]
  | .caves => some ["#3a3a3a", "#3b3b3b", "#3c3c3c", "#3d3d3d"]
  | .mines => some ["#5a5a5a", "#5b5b5b", "#5c5c5c", "#5d5d5d", "#5e5e5e"]
  | .wasteland => none
  | .ruins => none
  | .bunker => none
  | .canyon => none
  | .dead_zone => none
  | .infection_site => none

/-- `parseInt(·, 16)` digit value for the lowercase hex digits appearing in the
    palette literals. -/
def hexVal (c : Char) : ℕ :=
  if '0' ≤ c ∧ c ≤ '9' then c.toNat - 48
  else if 'a' ≤ c ∧ c ≤ 'f' then c.toNat - 87
  else 0

/-- `parseInt(hex.substr(i, 2), 16)` for a `"#rrggbb"` literal (`cs` is the
    character list of the color string, index counted past the `#`). -/
def hexPair (cs : List Char) (i : ℕ) : ℚ :=
  ((16 * hexVal (cs.getD i '0') + hexVal (cs.getD (i + 1) '0') : ℕ) : ℚ)

/-- `getBlockColor(biomeType, variantIndex, blockX, blockY)`.

    `none` models the `TypeError` the source throws reading `colors.length`
    when `TILE_COLORS[biomeType]` is `undefined`.  JS `%` truncates toward
    zero (`Int.tmod`); a negative index yields `undefined` and the `'#000000'`
    fallback.  `hash & 0xff` on an int32 equals reduction mod 256. -/
def getBlockColor (biomeType : TileType) (variantIndex : ℤ) (blockX blockY : ℤ) : Option String :=
  match TILE_COLORS biomeType with
  | none => none
  | some colors =>
    let idx : ℤ := variantIndex.tmod colors.length
    let baseColor? : Option String := if 0 ≤ idx then colors[idx.toNat]? else none
    match baseColor? with
    | none => some "#000000"
    | some baseColor =>
      let h := jsXor (blockX * 73856093) (blockY * 19349663)
      let variation : ℚ := ((jsToUint32 h % 256 : ℕ) : ℚ) / 255 * 0.08 - 0.04
      let cs := baseColor.toList
      let r : ℚ := max 0 (min 255 (hexPair cs 1 * (1 + variation)))
      let g : ℚ := max 0 (min 255 (hexPair cs 3 * (1 + variation)))
      let b : ℚ := max 0 (min 255 (hexPair cs 5 * (1 + variation)))
      some ("rgb(" ++ toString ⌊r⌋ ++ ", " ++ toString ⌊g⌋ ++ ", " ++ toString ⌊b⌋ ++ ")")

end BiomeConfig

/-! ## `RenderOptimizer.ts` and `GameWorld.tsx`: viewport bounds and the
    chunk load/evict pass -/

structure ViewportBounds where
  minChunkX : ℤ
  minChunkY : ℤ
  maxChunkX : ℤ
  maxChunkY : ℤ
  deriving DecidableEq, Repr

namespace RenderOptimizer

/-- `chunkPixelSize = config.chunkSize * config.tileSize`. -/
def chunkPixelSize (cfg : WorldConfig) : ℚ := (cfg.chunkSize : ℚ) * cfg.tileSize

/-- `calculateViewportBounds(cameraX, cameraY, viewportWidth, viewportHeight)`. -/
def calculateViewportBounds (cfg : WorldConfig) (cameraX cameraY viewportWidth viewportHeight : ℚ) :
    ViewportBounds :=
  let cps := chunkPixelSize cfg
  { minChunkX := ⌊-cameraX / cps⌋ - cfg.viewDistance
    minChunkY := ⌊-cameraY / cps⌋ - cfg.viewDistance
    maxChunkX := ⌊(viewportWidth - cameraX) / cps⌋ + cfg.viewDistance
    maxChunkY := ⌊(viewportHeight - cameraY) / cps⌋ + cfg.viewDistance }

end RenderOptimizer

namespace GameWorld

/-- One camera/canvas configuration fed to a `loadVisibleChunks` pass. -/
structure Pan where
  cameraX : ℚ
  cameraY : ℚ
  width : ℚ
  height : ℚ

/-- `calculateVisibleChunks(offsetX, offsetY, width, height)` from
    `GameWorld.tsx` (the same floor formulas as
    `RenderOptimizer.calculateViewportBounds`), as the set of chunk keys;
    keys `"cx,cy"` are modelled by the integer pairs they encode. -/
def calculateVisibleChunks (cfg : WorldConfig) (p : Pan) : Finset (ℤ × ℤ) :=
  let cps := RenderOptimizer.chunkPixelSize cfg
  let minChunkX := ⌊-p.cameraX / cps⌋ - cfg.viewDistance
  let minChunkY := ⌊-p.cameraY / cps⌋ - cfg.viewDistance
  let maxChunkX := ⌊(p.width - p.cameraX) / cps⌋ + cfg.viewDistance
  let maxChunkY := ⌊(p.height - p.cameraY) / cps⌋ + cfg.viewDistance
  Finset.Icc minChunkX maxChunkX ×ˢ Finset.Icc minChunkY maxChunkY

/-- The mutable state of the chunk-load pass: the chunk registry's key set
    (`chunksRef`) and the previously visible key set (`visibleChunksRef`).
    Only key residency matters to the lifecycle invariants, so chunk payloads
    are not carried. -/
structure LoadState where
  registry : Finset (ℤ × ℤ)
  lastVisible : Finset (ℤ × ℤ)

/-- Initial state: both maps start empty. -/
def initState : LoadState := ⟨∅, ∅⟩

/-- One completed run of `loadVisibleChunks`:
    1. compute the visible key set;
    2. if it has the same size as the previous visible set and every key is
       contained in it, return early with nothing changed;
    3. generate every missing visible chunk (registry gains all visible keys);
    4. evict resident keys that are not visible and whose Chebyshev distance
       from the visible bounds exceeds `viewDistance + 4`;
    5. record the visible set. -/
def loadVisibleChunks (cfg : WorldConfig) (p : Pan) (s : LoadState) : LoadState :=
  let visibleKeys := calculateVisibleChunks cfg p
  if visibleKeys.card = s.lastVisible.card ∧ visibleKeys ⊆ s.lastVisible then s
  else
    let generated := s.registry ∪ visibleKeys
    let cps := RenderOptimizer.chunkPixelSize cfg
    let minVisibleCx := ⌊-p.cameraX / cps⌋ - cfg.viewDistance
    let minVisibleCy := ⌊-p.cameraY / cps⌋ - cfg.viewDistance
    let maxVisibleCx := ⌊(p.width - p.cameraX) / cps⌋ + cfg.viewDistance
    let maxVisibleCy := ⌊(p.height - p.cameraY) / cps⌋ + cfg.viewDistance
    let maxDist := cfg.viewDistance + 4
    let keep := fun (k : ℤ × ℤ) =>
      k ∈ visibleKeys ∨
        max (max 0 (max (minVisibleCx - k.1) (k.1 - maxVisibleCx)))
            (max 0 (max (minVisibleCy - k.2) (k.2 - maxVisibleCy))) ≤ maxDist
    { registry := generated.filter keep, lastVisible := visibleKeys }

/-- A sequence of pans, each followed by a completed `loadVisibleChunks` pass. -/
def runPans (cfg : WorldConfig) (pans : List Pan) : LoadState :=
  pans.foldl (fun s p => loadVisibleChunks cfg p s) initState

end GameWorld

/-! ## Helper lemmas -/

/-- Every lattice-corner hash lies in `[-1, 1]`. -/
lemma hash_range (seed x y offset : ℤ) :
    -1 ≤ NoiseGenerator.hash seed x y offset ∧ NoiseGenerator.hash seed x y offset ≤ 1 := by
  have h0 : (0 : ℤ) ≤ NoiseGenerator.hashInt seed x y offset := by
    simp only [NoiseGenerator.hashInt]
    omega
  have h1 : NoiseGenerator.hashInt seed x y offset < 2147483648 := by
    simp only [NoiseGenerator.hashInt]
    omega
  have h0' : (0 : ℚ) ≤ ((NoiseGenerator.hashInt seed x y offset : ℤ) : ℚ) := by exact_mod_cast h0
  have h1' : ((NoiseGenerator.hashInt seed x y offset : ℤ) : ℚ) ≤ 2147483647 := by
    have h2 : NoiseGenerator.hashInt seed x y offset ≤ 2147483647 := by omega
    exact_mod_cast h2
  unfold NoiseGenerator.hash
  constructor
  · have h3 : (0 : ℚ) ≤ ((NoiseGenerator.hashInt seed x y offset : ℤ) : ℚ) / 2147483647 :=
      div_nonneg h0' (by norm_num)
    linarith
  · have h3 : ((NoiseGenerator.hashInt seed x y offset : ℤ) : ℚ) / 2147483647 ≤ 1 := by
      rw [div_le_one (by norm_num)]; exact h1'
    linarith

/-- The quintic fade maps `[0, 1]` into `[0, 1]`. -/
lemma fade_range (t : ℚ) (h0 : 0 ≤ t) (h1 : t ≤ 1) :
    0 ≤ NoiseGenerator.fade t ∧ NoiseGenerator.fade t ≤ 1 := by
  unfold NoiseGenerator.fade
  constructor
  · nlinarith [mul_nonneg (mul_nonneg h0 h0) h0, sq_nonneg (4 * t - 5),
      mul_nonneg (mul_nonneg (mul_nonneg h0 h0) h0) (sq_nonneg (4 * t - 5))]
  · nlinarith [pow_nonneg (by linarith : (0 : ℚ) ≤ 1 - t) 3, sq_nonneg (4 * t + 1),
      mul_nonneg (pow_nonneg (by linarith : (0 : ℚ) ≤ 1 - t) 3) (sq_nonneg (4 * t + 1))]

/-- Eased linear interpolation with weight in `[0, 1]` stays in `[-1, 1]`. -/
lemma lerp_range (a b u : ℚ) (ha : -1 ≤ a) (ha' : a ≤ 1) (hb : -1 ≤ b) (hb' : b ≤ 1)
    (hu : 0 ≤ u) (hu' : u ≤ 1) : -1 ≤ a + u * (b - a) ∧ a + u * (b - a) ≤ 1 := by
  constructor <;> nlinarith

/-- Every `TileType` value is listed in `allTileTypes`. -/
lemma mem_allTileTypes (t : TileType) : t ∈ allTileTypes := by
  cases t <;> simp [allTileTypes]

/-- C7 --- Noise range: for every seed, every rational sample point `(x, y)`
    and every integer channel offset, the cache-free
    `NoiseGenerator.noise(x, y, offset)` value lies in the closed interval
    `[-1, 1]`: each lattice-corner hash lies in `[-1, 1]` and the fade-eased
    bilinear interpolation with weights in `[0, 1]` preserves those bounds. -/
theorem noise_range (seed : ℤ) (x y : ℚ) (offset : ℤ) :
    -1 ≤ NoiseGenerator.noisePure seed x y offset ∧
      NoiseGenerator.noisePure seed x y offset ≤ 1 := by
  unfold NoiseGenerator.noisePure
  have hxf0 : (0 : ℚ) ≤ x - ⌊x⌋ := by
    have := Int.floor_le x; linarith
  have hxf1 : x - ⌊x⌋ ≤ 1 := by
    have := Int.lt_floor_add_one x; linarith
  have hyf0 : (0 : ℚ) ≤ y - ⌊y⌋ := by
    have := Int.floor_le y; linarith
  have hyf1 : y - ⌊y⌋ ≤ 1 := by
    have := Int.lt_floor_add_one y; linarith
  have hu := fade_range _ hxf0 hxf1
  have hv := fade_range _ hyf0 hyf1
  have h00 := hash_range seed ⌊x⌋ ⌊y⌋ offset
  have h10 := hash_range seed (⌊x⌋ + 1) ⌊y⌋ offset
  have h01 := hash_range seed ⌊x⌋ (⌊y⌋ + 1) offset
  have h11 := hash_range seed (⌊x⌋ + 1) (⌊y⌋ + 1) offset
  have hx0 := lerp_range _ _ _ h00.1 h00.2 h10.1 h10.2 hu.1 hu.2
  have hx1 := lerp_range _ _ _ h01.1 h01.2 h11.1 h11.2 hu.1 hu.2
  exact lerp_range _ _ _ hx0.1 hx0.2 hx1.1 hx1.2 hv.1 hv.2

/-- C3 --- Classifier totality: for every seed, every weight vector and every
    world coordinate (including `(0, 0)` and arbitrarily large magnitudes),
    `determineBiome` returns a member of the closed `TileType` enumeration:
    the cascade always reaches a return (the ubiquitous `grasslands` default),
    and the result is one of the 28 listed biome tags. -/
theorem determineBiome_total (seed : ℤ) (w : BiomeWeights) (blockX blockY : ℤ) :
    WorldGenerator.determineBiome seed w blockX blockY ∈ allTileTypes :=
  mem_allTileTypes _

/-- The blend factor as the spec sentence states it: `min(1, minDistance * scale)`
    where `minDistance` is the minimum absolute distance of the weight channels to
    the known elevation (`-0.55`, `-0.32`, `0.58`), temperature (`-0.25`, `0.35`)
    and moisture (`-0.28`, `0.28`) classification boundaries, with `scale = 10`. -/
def blendFactorSpec (w : BiomeWeights) : ℚ :=
  let dists : List ℚ :=
    [|w.elevation - (-0.55)|, |w.elevation - (-0.32)|, |w.elevation - 0.58|,
     |w.temperature - (-0.25)|, |w.temperature - 0.35|,
     |w.moisture - (-0.28)|, |w.moisture - 0.28|]
  min 1 (dists.foldr min (|w.elevation - (-0.55)|) * 10)

/-- C8 --- Blend factor: `calculateBlendFactor` returns exactly
    `min(1, minDistance * 10)` where `minDistance` is the minimum over the known
    elevation/temperature/moisture boundaries of `|value - boundary|`, and the
    result always lies in `[0, 1]`. -/
theorem calculateBlendFactor_spec (w : BiomeWeights) :
    WorldGenerator.calculateBlendFactor w = blendFactorSpec w ∧
      0 ≤ WorldGenerator.calculateBlendFactor w ∧
      WorldGenerator.calculateBlendFactor w ≤ 1 := by
  refine ⟨?_, ?_, ?_⟩
  · unfold WorldGenerator.calculateBlendFactor blendFactorSpec
    simp only [List.foldr]
    ring_nf
  · unfold WorldGenerator.calculateBlendFactor
    simp only [List.foldr]
    have h1 := abs_nonneg (w.elevation + 0.55)
    have h2 := abs_nonneg (w.elevation + 0.32)
    have h3 := abs_nonneg (w.elevation - 0.58)
    have h4 := abs_nonneg (w.temperature + 0.25)
    have h5 := abs_nonneg (w.temperature - 0.35)
    have h6 := abs_nonneg (w.moisture + 0.28)
    have h7 := abs_nonneg (w.moisture - 0.28)
    positivity
  · unfold WorldGenerator.calculateBlendFactor
    exact min_le_left _ _

/-- C6 --- Viewport bounds monotonicity and shift: with a positive chunk pixel
    size, enlarging the viewport never shrinks the visible chunk range computed
    by `calculateViewportBounds` (the min indices are unchanged and the max
    indices do not decrease), and replacing `cameraX` by
    `cameraX - chunkPixelSize` (panning by exactly one chunk's pixel width)
    increases both `minChunkX` and `maxChunkX` by exactly 1 while leaving the
    Y bounds unchanged. -/
theorem calculateViewportBounds_mono_shift (cfg : WorldConfig)
    (hcps : 0 < RenderOptimizer.chunkPixelSize cfg)
    (cameraX cameraY w h w' h' : ℚ) (hw : w ≤ w') (hh : h ≤ h') :
    ((RenderOptimizer.calculateViewportBounds cfg cameraX cameraY w' h').minChunkX =
        (RenderOptimizer.calculateViewportBounds cfg cameraX cameraY w h).minChunkX ∧
      (RenderOptimizer.calculateViewportBounds cfg cameraX cameraY w' h').minChunkY =
        (RenderOptimizer.calculateViewportBounds cfg cameraX cameraY w h).minChunkY ∧
      (RenderOptimizer.calculateViewportBounds cfg cameraX cameraY w h).maxChunkX ≤
        (RenderOptimizer.calculateViewportBounds cfg cameraX cameraY w' h').maxChunkX ∧
      (RenderOptimizer.calculateViewportBounds cfg cameraX cameraY w h).maxChunkY ≤
        (RenderOptimizer.calculateViewportBounds cfg cameraX cameraY w' h').maxChunkY) ∧
    ((RenderOptimizer.calculateViewportBounds cfg
          (cameraX - RenderOptimizer.chunkPixelSize cfg) cameraY w h).minChunkX =
        (RenderOptimizer.calculateViewportBounds cfg cameraX cameraY w h).minChunkX + 1 ∧
      (RenderOptimizer.calculateViewportBounds cfg
          (cameraX - RenderOptimizer.chunkPixelSize cfg) cameraY w h).maxChunkX =
        (RenderOptimizer.calculateViewportBounds cfg cameraX cameraY w h).maxChunkX + 1 ∧
      (RenderOptimizer.calculateViewportBounds cfg
          (cameraX - RenderOptimizer.chunkPixelSize cfg) cameraY w h).minChunkY =
        (RenderOptimizer.calculateViewportBounds cfg cameraX cameraY w h).minChunkY ∧
      (RenderOptimizer.calculateViewportBounds cfg
          (cameraX - RenderOptimizer.chunkPixelSize cfg) cameraY w h).maxChunkY =
        (RenderOptimizer.calculateViewportBounds cfg cameraX cameraY w h).maxChunkY) := by
  have hne : RenderOptimizer.chunkPixelSize cfg ≠ 0 := ne_of_gt hcps
  refine ⟨⟨rfl, rfl, ?_, ?_⟩, ?_, ?_, rfl, rfl⟩
  · show ⌊(w - cameraX) / RenderOptimizer.chunkPixelSize cfg⌋ + cfg.viewDistance ≤
        ⌊(w' - cameraX) / RenderOptimizer.chunkPixelSize cfg⌋ + cfg.viewDistance
    have h1 : ⌊(w - cameraX) / RenderOptimizer.chunkPixelSize cfg⌋ ≤
        ⌊(w' - cameraX) / RenderOptimizer.chunkPixelSize cfg⌋ :=
      Int.floor_le_floor (by gcongr)
    omega
  · show ⌊(h - cameraY) / RenderOptimizer.chunkPixelSize cfg⌋ + cfg.viewDistance ≤
        ⌊(h' - cameraY) / RenderOptimizer.chunkPixelSize cfg⌋ + cfg.viewDistance
    have h1 : ⌊(h - cameraY) / RenderOptimizer.chunkPixelSize cfg⌋ ≤
        ⌊(h' - cameraY) / RenderOptimizer.chunkPixelSize cfg⌋ :=
      Int.floor_le_floor (by gcongr)
    omega
  · show ⌊-(cameraX - RenderOptimizer.chunkPixelSize cfg) / RenderOptimizer.chunkPixelSize cfg⌋ -
        cfg.viewDistance =
      ⌊-cameraX / RenderOptimizer.chunkPixelSize cfg⌋ - cfg.viewDistance + 1
    have heq : -(cameraX - RenderOptimizer.chunkPixelSize cfg) / RenderOptimizer.chunkPixelSize cfg =
        -cameraX / RenderOptimizer.chunkPixelSize cfg + 1 := by
      field_simp
      ring
    rw [heq, Int.floor_add_one]
    omega
  · show ⌊(w - (cameraX - RenderOptimizer.chunkPixelSize cfg)) / RenderOptimizer.chunkPixelSize cfg⌋ +
        cfg.viewDistance =
      ⌊(w - cameraX) / RenderOptimizer.chunkPixelSize cfg⌋ + cfg.viewDistance + 1
    have heq : (w - (cameraX - RenderOptimizer.chunkPixelSize cfg)) / RenderOptimizer.chunkPixelSize cfg =
        (w - cameraX) / RenderOptimizer.chunkPixelSize cfg + 1 := by
      field_simp
      ring
    rw [heq, Int.floor_add_one]
    omega

/-- C6 witness: the theorem instantiated at the default configuration
    (`chunkPixelSize = 12 * 128 = 1536 > 0`) with viewport `800 × 600`
    enlarged to `1024 × 768`. -/
theorem calculateViewportBounds_mono_shift_witness :
    (0 < RenderOptimizer.chunkPixelSize DEFAULT_WORLD_CONFIG ∧
      (800 : ℚ) ≤ 1024 ∧ (600 : ℚ) ≤ 768) ∧
    ((RenderOptimizer.calculateViewportBounds DEFAULT_WORLD_CONFIG 100 (-200) 1024 768).minChunkX =
        (RenderOptimizer.calculateViewportBounds DEFAULT_WORLD_CONFIG 100 (-200) 800 600).minChunkX ∧
      (RenderOptimizer.calculateViewportBounds DEFAULT_WORLD_CONFIG 100 (-200) 1024 768).minChunkY =
        (RenderOptimizer.calculateViewportBounds DEFAULT_WORLD_CONFIG 100 (-200) 800 600).minChunkY ∧
      (RenderOptimizer.calculateViewportBounds DEFAULT_WORLD_CONFIG 100 (-200) 800 600).maxChunkX ≤
        (RenderOptimizer.calculateViewportBounds DEFAULT_WORLD_CONFIG 100 (-200) 1024 768).maxChunkX ∧
      (RenderOptimizer.calculateViewportBounds DEFAULT_WORLD_CONFIG 100 (-200) 800 600).maxChunkY ≤
        (RenderOptimizer.calculateViewportBounds DEFAULT_WORLD_CONFIG 100 (-200) 1024 768).maxChunkY) ∧
    ((RenderOptimizer.calculateViewportBounds DEFAULT_WORLD_CONFIG
          (100 - RenderOptimizer.chunkPixelSize DEFAULT_WORLD_CONFIG) (-200) 800 600).minChunkX =
        (RenderOptimizer.calculateViewportBounds DEFAULT_WORLD_CONFIG 100 (-200) 800 600).minChunkX + 1 ∧
      (RenderOptimizer.calculateViewportBounds DEFAULT_WORLD_CONFIG
          (100 - RenderOptimizer.chunkPixelSize DEFAULT_WORLD_CONFIG) (-200) 800 600).maxChunkX =
        (RenderOptimizer.calculateViewportBounds DEFAULT_WORLD_CONFIG 100 (-200) 800 600).maxChunkX + 1 ∧
      (RenderOptimizer.calculateViewportBounds DEFAULT_WORLD_CONFIG
          (100 - RenderOptimizer.chunkPixelSize DEFAULT_WORLD_CONFIG) (-200) 800 600).minChunkY =
        (RenderOptimizer.calculateViewportBounds DEFAULT_WORLD_CONFIG 100 (-200) 800 600).minChunkY ∧
      (RenderOptimizer.calculateViewportBounds DEFAULT_WORLD_CONFIG
          (100 - RenderOptimizer.chunkPixelSize DEFAULT_WORLD_CONFIG) (-200) 800 600).maxChunkY =
        (RenderOptimizer.calculateViewportBounds DEFAULT_WORLD_CONFIG 100 (-200) 800 600).maxChunkY) := by
  have hcps : 0 < RenderOptimizer.chunkPixelSize DEFAULT_WORLD_CONFIG := by
    norm_num [RenderOptimizer.chunkPixelSize, DEFAULT_WORLD_CONFIG]
  have h := calculateViewportBounds_mono_shift DEFAULT_WORLD_CONFIG hcps
    100 (-200) 800 600 1024 768 (by norm_num) (by norm_num)
  exact ⟨⟨hcps, by norm_num, by norm_num⟩, h.1, h.2⟩

/-- The residency invariant: the previously-recorded visible key set is
    resident in the chunk registry. -/
def GameWorld.Inv (s : GameWorld.LoadState) : Prop :=
  s.lastVisible ⊆ s.registry

/-- After a completed `loadVisibleChunks` pass the computed visible keys are
    all resident, and the residency invariant is re-established. -/
lemma loadVisibleChunks_step (cfg : WorldConfig) (p : GameWorld.Pan)
    (s : GameWorld.LoadState) (hs : GameWorld.Inv s) :
    GameWorld.calculateVisibleChunks cfg p ⊆ (GameWorld.loadVisibleChunks cfg p s).registry ∧
      GameWorld.Inv (GameWorld.loadVisibleChunks cfg p s) := by
  unfold GameWorld.loadVisibleChunks
  by_cases hsame : (GameWorld.calculateVisibleChunks cfg p).card = s.lastVisible.card ∧
      GameWorld.calculateVisibleChunks cfg p ⊆ s.lastVisible
  · rw [if_pos hsame]
    have heq : GameWorld.calculateVisibleChunks cfg p = s.lastVisible :=
      Finset.eq_of_subset_of_card_le hsame.2 (le_of_eq hsame.1.symm)
    exact ⟨heq ▸ hs, hs⟩
  · rw [if_neg hsame]
    constructor
    · intro k hk
      simp only [Finset.mem_filter, Finset.mem_union]
      exact ⟨Or.inr hk, Or.inl hk⟩
    · intro k hk
      simp only [Finset.mem_filter, Finset.mem_union]
      exact ⟨Or.inr hk, Or.inl hk⟩

/-- C5 --- Eviction safety / residency invariant: for every configuration and
    every sequence of camera pans each followed by a completed
    `loadVisibleChunks` pass, the chunk registry's key set after the final pass
    is a superset of that pass's computed visible chunk key set: no chunk whose
    key lies within the computed visible bounds is absent or deleted by the
    eviction step (which removes only keys outside the visible set whose
    Chebyshev distance from the visible bounds exceeds `viewDistance + 4`). -/
theorem loadVisibleChunks_residency (cfg : WorldConfig) (pans : List GameWorld.Pan)
    (p : GameWorld.Pan) :
    GameWorld.calculateVisibleChunks cfg p ⊆
      (GameWorld.loadVisibleChunks cfg p (GameWorld.runPans cfg pans)).registry := by
  have hinv : GameWorld.Inv (GameWorld.runPans cfg pans) := by
    unfold GameWorld.runPans
    induction pans using List.reverseRecOn with
    | nil =>
      intro k hk
      simp [GameWorld.initState] at hk
    | append_singleton qs q ih =>
      rw [List.foldl_append]
      exact (loadVisibleChunks_step cfg q _ ih).2
  exact (loadVisibleChunks_step cfg p _ hinv).1

/-- `noise` at an integer lattice point is the corner hash itself
    (the fractional parts vanish and `fade 0 = 0`). -/
lemma noisePure_intCast (seed X Y offset : ℤ) :
    NoiseGenerator.noisePure seed (X : ℚ) (Y : ℚ) offset = NoiseGenerator.hash seed X Y offset := by
  simp [NoiseGenerator.noisePure, NoiseGenerator.fade, Int.floor_intCast]

/-- The rarity noise sample at the origin for the integer seed 0:
    `hashInt 0 0 0 5000 = 1668196366`, hence the sample is
    `1668196366/2147483647 * 2 - 1 = 1188909085/2147483647 ≈ 0.5536`. -/
lemma rarityNoise_origin :
    NoiseGenerator.noisePure 0 (((0 : ℤ) : ℚ) * 0.008) (((0 : ℤ) : ℚ) * 0.008) 5000 =
      1188909085 / 2147483647 := by
  rw [show (((0 : ℤ) : ℚ) * 0.008) = ((0 : ℤ) : ℚ) by push_cast; ring]
  rw [noisePure_intCast]
  unfold NoiseGenerator.hash
  rw [show NoiseGenerator.hashInt 0 0 0 5000 = 1668196366 from by decide]
  norm_num

/-- In the spawn safe zone the classification cascade never yields an
    epic- or legendary-rarity biome: every epic/legendary return is guarded by
    `¬ inSafeZone`, and all remaining returns have rarity at most `rare`. -/
lemma cascade_safeZone (w : BiomeWeights) (s : ℤ) (rn g6000 g6100 g6200 g6300 g6400 g7000 g8000 : ℚ)
    (hs : s < 2500) :
    BIOME_RARITY (WorldGenerator.biomeCascade w s rn g6000 g6100 g6200 g6300 g6400 g7000 g8000) ≠
        BiomeRarity.epic ∧
      BIOME_RARITY (WorldGenerator.biomeCascade w s rn g6000 g6100 g6200 g6300 g6400 g7000 g8000) ≠
        BiomeRarity.legendary := by
  unfold WorldGenerator.biomeCascade
  by_cases h1 : (¬ s < 2500 ∧ 225000000 < s) ∧ (0.75 < w.contamination ∧ 0.85 < rn)
  · exact absurd hs h1.1.1
  rw [if_neg h1]
  by_cases h2 : (¬ s < 2500 ∧ 225000000 < s) ∧
      (0.7 < w.contamination ∧ w.elevation < -0.3 ∧ 0.82 < rn)
  · exact absurd hs h2.1.1
  rw [if_neg h2]
  by_cases h3 : (¬ s < 2500 ∧ 0.72 < rn) ∧
      (0.5 < w.elevation ∧ w.moisture < 0 ∧ 0.7 < g6000)
  · exact absurd hs h3.1.1
  rw [if_neg h3]
  by_cases h4 : (¬ s < 2500 ∧ 0.72 < rn) ∧
      (0.6 < w.elevation ∧ w.moisture < -0.15 ∧ 0.65 < g6100)
  · exact absurd hs h4.1.1
  rw [if_neg h4]
  by_cases h5 : (¬ s < 2500 ∧ 0.72 < rn) ∧ (0.4 < w.moisture ∧ w.elevation < -0.2 ∧
      0.3 < w.temperature ∧ w.temperature < 0.7 ∧ 0.6 < g6200)
  · exact absurd hs h5.1.1
  rw [if_neg h5]
  by_cases h6 : 0.55 < rn ∧ w.elevation < -0.45
  · rw [if_pos h6]
    first | decide | (split_ifs <;> decide)
  rw [if_neg h6]
  by_cases h7 : 0.55 < rn ∧ (0.45 < w.temperature ∧ 0.55 < w.moisture ∧
      -0.15 < w.elevation ∧ w.elevation < 0.35)
  · rw [if_pos h7]
    first | decide | (split_ifs <;> decide)
  rw [if_neg h7]
  by_cases h8 : 0.55 < rn ∧ (0.45 < w.moisture ∧ -0.12 < w.elevation ∧
      w.elevation < 0.05 ∧ 0.15 < w.temperature)
  · rw [if_pos h8]
    first | decide | (split_ifs <;> decide)
  rw [if_neg h8]
  by_cases h9 : 0.55 < rn ∧ (w.elevation < -0.08 ∧ -0.28 < w.elevation ∧ 0.35 < w.temperature) ∧
      0.45 < g6300
  · rw [if_pos h9]
    first | decide | (split_ifs <;> decide)
  rw [if_neg h9]
  by_cases h10 : 0.55 < rn ∧ (0.35 < w.temperature ∧ w.moisture < -0.25 ∧
      0.25 < w.elevation ∧ w.elevation < 0.55)
  · rw [if_pos h10]
    first | decide | (split_ifs <;> decide)
  rw [if_neg h10]
  by_cases h11 : 0.55 < rn ∧ (0.35 < w.temperature ∧ w.moisture < -0.45 ∧
      -0.08 < w.elevation ∧ w.elevation < 0.35)
  · rw [if_pos h11]
    first | decide | (split_ifs <;> decide)
  rw [if_neg h11]
  by_cases h12 : 0.55 < rn ∧ (w.temperature < -0.25 ∧ 0.05 < w.moisture ∧
      0.15 < w.elevation ∧ w.elevation < 0.45)
  · rw [if_pos h12]
    first | decide | (split_ifs <;> decide)
  rw [if_neg h12]
  by_cases h13 : 0.55 < rn ∧ (w.temperature < -0.35 ∧ w.moisture < 0.05 ∧
      0.05 < w.elevation)
  · rw [if_pos h13]
    first | decide | (split_ifs <;> decide)
  rw [if_neg h13]
  by_cases h14 : 0.55 < rn ∧ (0.4 < w.temperature ∧ w.moisture < -0.3 ∧
      0.3 < w.elevation ∧ w.elevation < 0.6) ∧ 0.6 < g6400
  · rw [if_pos h14]
    first | decide | (split_ifs <;> decide)
  rw [if_neg h14]
  by_cases h15 : (¬ s < 2500 ∧ 40000 < s ∧ 0.2 < w.contamination) ∧ 0.68 < g7000
  · exact absurd hs h15.1.1
  rw [if_neg h15]
  by_cases h16 : w.elevation < -0.55
  · rw [if_pos h16]
    first | decide | (split_ifs <;> decide)
  rw [if_neg h16]
  by_cases h17 : w.elevation < -0.32
  · rw [if_pos h17]
    first | decide | (split_ifs <;> decide)
  rw [if_neg h17]
  by_cases h18 : w.elevation < -0.18 ∧ -0.32 < w.elevation
  · rw [if_pos h18]
    first | decide | (split_ifs <;> decide)
  rw [if_neg h18]
  by_cases h19 : 0.58 < w.elevation
  · rw [if_pos h19]
    first | decide | (split_ifs <;> decide)
  rw [if_neg h19]
  by_cases h20 : w.temperature < -0.25 ∧ (0.25 < w.moisture ∧ 0.12 < w.elevation)
  · rw [if_pos h20]
    first | decide | (split_ifs <;> decide)
  rw [if_neg h20]
  by_cases h21 : w.temperature < -0.25 ∧ w.elevation < 0.12
  · rw [if_pos h21]
    first | decide | (split_ifs <;> decide)
  rw [if_neg h21]
  by_cases h22 : w.temperature < -0.25
  · rw [if_pos h22]
    first | decide | (split_ifs <;> decide)
  rw [if_neg h22]
  by_cases h23 : 0.35 < w.temperature ∧ w.moisture < -0.35
  · rw [if_pos h23]
    first | decide | (split_ifs <;> decide)
  rw [if_neg h23]
  by_cases h24 : 0.35 < w.temperature ∧ (0.25 < w.moisture ∧ w.elevation < 0.15)
  · rw [if_pos h24]
    first | decide | (split_ifs <;> decide)
  rw [if_neg h24]
  by_cases h25 : (0.28 < w.moisture ∧ -0.08 < w.elevation ∧ w.elevation < 0.25) ∧
      0.25 < g8000
  · rw [if_pos h25]
    first | decide | (split_ifs <;> decide)
  rw [if_neg h25]
  by_cases h26 : 0.48 < w.moisture ∧ -0.08 < w.elevation ∧ w.elevation < 0.12
  · rw [if_pos h26]
    first | decide | (split_ifs <;> decide)
  rw [if_neg h26]
  by_cases h27 : w.moisture < -0.15 ∧ -0.45 < w.moisture ∧ -0.08 < w.elevation ∧ w.elevation < 0.35
  · rw [if_pos h27]
    first | decide | (split_ifs <;> decide)
  rw [if_neg h27]
  decide
/-- C2 counterexample: at the origin (distance 0 from spawn, inside the safe
    radius 50) with seed 0 and weights (temperature −0.5, moisture 0,
    elevation 0.3, contamination 0), `determineBiome` returns `tundra`, whose
    `BIOME_RARITY` entry is `rare` --- so a rare-tier biome does appear inside
    the spawn safe zone, refuting the claim that the rarity tier there is
    always below `rare`. -/
theorem determineBiome_spawnSafe_cex :
    (0 : ℤ) * 0 + 0 * 0 < 2500 ∧
      WorldGenerator.determineBiome 0
        { temperature := -0.5, moisture := 0, elevation := 0.3, contamination := 0 } 0 0 =
        TileType.tundra ∧
      BIOME_RARITY TileType.tundra = BiomeRarity.rare := by
  refine ⟨by decide, ?_, by decide⟩
  simp only [WorldGenerator.determineBiome, WorldGenerator.biomeCascade]
  norm_num [rarityNoise_origin]

/-- C2 (amended) --- Spawn safety: for every seed, every weight vector and
    every world block coordinate `(x, y)` within the spawn safe radius
    (`x² + y² < 50²`), the biome returned by `determineBiome` is never of
    rarity `epic` or `legendary` according to the `BIOME_RARITY` table
    (rare-tier biomes, e.g. `tundra`, can still occur there). -/
theorem determineBiome_spawnSafe (seed : ℤ) (w : BiomeWeights) (x y : ℤ)
    (hsafe : x * x + y * y < 2500) :
    BIOME_RARITY (WorldGenerator.determineBiome seed w x y) ≠ BiomeRarity.epic ∧
      BIOME_RARITY (WorldGenerator.determineBiome seed w x y) ≠ BiomeRarity.legendary := by
  unfold WorldGenerator.determineBiome
  exact cascade_safeZone _ _ _ _ _ _ _ _ _ _ hsafe

/-- C2 witness: the amended theorem applied at the origin. -/
theorem determineBiome_spawnSafe_witness :
    ((0 : ℤ) * 0 + 0 * 0 < 2500) ∧
      (BIOME_RARITY (WorldGenerator.determineBiome 7
          { temperature := 0, moisture := 0, elevation := 0, contamination := 0 } 0 0) ≠
          BiomeRarity.epic ∧
        BIOME_RARITY (WorldGenerator.determineBiome 7
          { temperature := 0, moisture := 0, elevation := 0, contamination := 0 } 0 0) ≠
          BiomeRarity.legendary) :=
  ⟨by decide, determineBiome_spawnSafe 7
    { temperature := 0, moisture := 0, elevation := 0, contamination := 0 } 0 0 (by decide)⟩

/-- Indexing a mapped range list inside its bounds. -/
lemma getD_range_map {α : Type} (n : ℕ) (f : ℕ → α) (i : ℕ) (d : α) (h : i < n) :
    ((List.range n).map f).getD i d = f i := by
  simp [List.getD_eq_getElem?_getD, List.getElem?_map, List.getElem?_range h]

/-- Out-of-band default used only to make list indexing total in statements. -/
def defaultBlock : Block :=
  { type := .grasslands, x := 0, y := 0, blendFactor := 0, elevation := 0, zombieSpawnWeight := 0 }

/-- Out-of-band default used only to make list indexing total in statements. -/
def defaultTile : Tile :=
  { type := .grasslands, x := 0, y := 0, variant := 0, blocks := [], elevation := 0,
    isExplored := false, hasStructure := false }

/-- `calculateZombieSpawnWeight` stays in `[0, 2]` whenever the supplied
    distance is nonnegative. -/
lemma zombieWeight_range (t : TileType) (x y : ℤ) (d : ℚ) (hd : 0 ≤ d) :
    0 ≤ WorldGenerator.calculateZombieSpawnWeight t x y d ∧
      WorldGenerator.calculateZombieSpawnWeight t x y d ≤ 2 := by
  unfold WorldGenerator.calculateZombieSpawnWeight
  split_ifs with h
  · norm_num
  · have hb : 0 ≤ WorldGenerator.zombieBaseWeight t ∧ WorldGenerator.zombieBaseWeight t ≤ 1 := by
      cases t <;> norm_num [WorldGenerator.zombieBaseWeight]
    have hm0 : (0 : ℚ) ≤ min 2.0 (0.5 + d / 1000) :=
      le_min (by norm_num) (by positivity)
    have hm2 : min (2.0 : ℚ) (0.5 + d / 1000) ≤ 2 := le_trans (min_le_left _ _) (by norm_num)
    exact ⟨mul_nonneg hb.1 hm0,
      le_trans (mul_le_mul hb.2 hm2 hm0 (by norm_num)) (by norm_num)⟩

/-- Inside the spawn safe zone the zombie weight is exactly `0.1`. -/
lemma zombieWeight_safeZone (t : TileType) (x y : ℤ) (d : ℚ) (h : x * x + y * y < 2500) :
    WorldGenerator.calculateZombieSpawnWeight t x y d = 0.1 := by
  unfold WorldGenerator.calculateZombieSpawnWeight
  rw [if_pos h]

/-- C10 --- Zombie spawn weight bounds: every block generated by
    `generateTileWithBlocks` carries `zombieSpawnWeight ∈ [0, 2]` (the distance
    supplied for the block is nonnegative, as `Math.sqrt` is), and any block
    whose world coordinates lie within the spawn safe radius
    (`x² + y² < 50²`) gets exactly `0.1`, regardless of biome type. -/
theorem generateTile_zombieWeight (cfg : WorldConfig) (seed : ℤ) (dist : ℤ → ℤ → ℚ)
    (tileX tileY : ℤ) (bx b_y : ℕ)
    (hbx : bx < cfg.blocksPerTile) (hby : b_y < cfg.blocksPerTile)
    (hd : 0 ≤ dist (tileX * (cfg.blocksPerTile : ℤ) + (bx : ℤ))
      (tileY * (cfg.blocksPerTile : ℤ) + (b_y : ℤ))) :
    (0 ≤ (((WorldGenerator.generateTileWithBlocks cfg seed dist tileX tileY).blocks.getD b_y
          []).getD bx defaultBlock).zombieSpawnWeight ∧
      (((WorldGenerator.generateTileWithBlocks cfg seed dist tileX tileY).blocks.getD b_y
          []).getD bx defaultBlock).zombieSpawnWeight ≤ 2) ∧
    ((tileX * (cfg.blocksPerTile : ℤ) + (bx : ℤ)) * (tileX * (cfg.blocksPerTile : ℤ) + (bx : ℤ)) +
        (tileY * (cfg.blocksPerTile : ℤ) + (b_y : ℤ)) * (tileY * (cfg.blocksPerTile : ℤ) + (b_y : ℤ)) <
        2500 →
      (((WorldGenerator.generateTileWithBlocks cfg seed dist tileX tileY).blocks.getD b_y
          []).getD bx defaultBlock).zombieSpawnWeight = 0.1) := by
  simp only [WorldGenerator.generateTileWithBlocks]
  rw [getD_range_map _ _ _ _ hby, getD_range_map _ _ _ _ hbx]
  exact ⟨zombieWeight_range _ _ _ _ hd, fun hsafe => zombieWeight_safeZone _ _ _ _ hsafe⟩

/-- C10 witness: the theorem applied at tile `(0, 0)`, block `(0, 0)` of the
    default configuration with the zero distance oracle. -/
theorem generateTile_zombieWeight_witness :
    ((0 : ℕ) < DEFAULT_WORLD_CONFIG.blocksPerTile ∧
      (0 : ℚ) ≤ (fun (_ _ : ℤ) => (0 : ℚ)) ((0 : ℤ) * (DEFAULT_WORLD_CONFIG.blocksPerTile : ℤ) + ((0 : ℕ) : ℤ))
        ((0 : ℤ) * (DEFAULT_WORLD_CONFIG.blocksPerTile : ℤ) + ((0 : ℕ) : ℤ))) ∧
    ((0 ≤ (((WorldGenerator.generateTileWithBlocks DEFAULT_WORLD_CONFIG 0 (fun _ _ => 0) 0 0).blocks.getD 0
          []).getD 0 defaultBlock).zombieSpawnWeight ∧
      (((WorldGenerator.generateTileWithBlocks DEFAULT_WORLD_CONFIG 0 (fun _ _ => 0) 0 0).blocks.getD 0
          []).getD 0 defaultBlock).zombieSpawnWeight ≤ 2) ∧
    (((0 : ℤ) * (DEFAULT_WORLD_CONFIG.blocksPerTile : ℤ) + ((0 : ℕ) : ℤ)) *
          ((0 : ℤ) * (DEFAULT_WORLD_CONFIG.blocksPerTile : ℤ) + ((0 : ℕ) : ℤ)) +
        ((0 : ℤ) * (DEFAULT_WORLD_CONFIG.blocksPerTile : ℤ) + ((0 : ℕ) : ℤ)) *
          ((0 : ℤ) * (DEFAULT_WORLD_CONFIG.blocksPerTile : ℤ) + ((0 : ℕ) : ℤ)) < 2500 →
      (((WorldGenerator.generateTileWithBlocks DEFAULT_WORLD_CONFIG 0 (fun _ _ => 0) 0 0).blocks.getD 0
          []).getD 0 defaultBlock).zombieSpawnWeight = 0.1)) :=
  ⟨⟨by decide, by norm_num⟩,
    generateTile_zombieWeight DEFAULT_WORLD_CONFIG 0 (fun _ _ => 0) 0 0 0 0
      (by decide) (by decide) (by norm_num)⟩

/-- C4 --- Chunk partition consistency: the tile stored at
    `tiles[localY][localX]` of `generateChunk(cx, cy)` has world coordinates
    exactly `(cx*chunkSize + localX, cy*chunkSize + localY)` --- so adjacent
    chunks `(cx, cy)` and `(cx+1, cy)` tile the plane with no gaps or overlaps
    at the shared boundary column --- and the block at local index `(bx, by)`
    of the tile generated at `(tileX, tileY)` has world block coordinates
    `(tileX*blocksPerTile + bx, tileY*blocksPerTile + by)`. -/
theorem generateChunk_coords (cfg : WorldConfig) (seed : ℤ) (dist : ℤ → ℤ → ℚ)
    (cx cy tileX tileY : ℤ) (lx ly bx b_y : ℕ)
    (hlx : lx < cfg.chunkSize) (hly : ly < cfg.chunkSize)
    (hbx : bx < cfg.blocksPerTile) (hby : b_y < cfg.blocksPerTile) :
    ((((WorldGenerator.generateChunk cfg seed dist cx cy).tiles.getD ly []).getD lx
          defaultTile).x = cx * (cfg.chunkSize : ℤ) + (lx : ℤ) ∧
      (((WorldGenerator.generateChunk cfg seed dist cx cy).tiles.getD ly []).getD lx
          defaultTile).y = cy * (cfg.chunkSize : ℤ) + (ly : ℤ)) ∧
    ((((WorldGenerator.generateTileWithBlocks cfg seed dist tileX tileY).blocks.getD b_y
          []).getD bx defaultBlock).x = tileX * (cfg.blocksPerTile : ℤ) + (bx : ℤ) ∧
      (((WorldGenerator.generateTileWithBlocks cfg seed dist tileX tileY).blocks.getD b_y
          []).getD bx defaultBlock).y = tileY * (cfg.blocksPerTile : ℤ) + (b_y : ℤ)) := by
  constructor
  · simp only [WorldGenerator.generateChunk]
    rw [getD_range_map _ _ _ _ hly, getD_range_map _ _ _ _ hlx]
    exact ⟨rfl, rfl⟩
  · simp only [WorldGenerator.generateTileWithBlocks]
    rw [getD_range_map _ _ _ _ hby, getD_range_map _ _ _ _ hbx]
    exact ⟨rfl, rfl⟩

/-- C4 witness: the theorem applied at chunk `(0, 0)`, tile index `(1, 2)`,
    tile `(3, -4)` and block index `(5, 6)` of the default configuration. -/
theorem generateChunk_coords_witness :
    ((1 : ℕ) < DEFAULT_WORLD_CONFIG.chunkSize ∧ (2 : ℕ) < DEFAULT_WORLD_CONFIG.chunkSize ∧
      (5 : ℕ) < DEFAULT_WORLD_CONFIG.blocksPerTile ∧ (6 : ℕ) < DEFAULT_WORLD_CONFIG.blocksPerTile) ∧
    ((((WorldGenerator.generateChunk DEFAULT_WORLD_CONFIG 0 (fun _ _ => 0) 0 0).tiles.getD 2
        []).getD 1 defaultTile).x = 0 * (DEFAULT_WORLD_CONFIG.chunkSize : ℤ) + ((1 : ℕ) : ℤ) ∧
      (((WorldGenerator.generateChunk DEFAULT_WORLD_CONFIG 0 (fun _ _ => 0) 0 0).tiles.getD 2
        []).getD 1 defaultTile).y = 0 * (DEFAULT_WORLD_CONFIG.chunkSize : ℤ) + ((2 : ℕ) : ℤ)) ∧
    ((((WorldGenerator.generateTileWithBlocks DEFAULT_WORLD_CONFIG 0 (fun _ _ => 0) 3 (-4)).blocks.getD 6
        []).getD 5 defaultBlock).x = 3 * (DEFAULT_WORLD_CONFIG.blocksPerTile : ℤ) + ((5 : ℕ) : ℤ) ∧
      (((WorldGenerator.generateTileWithBlocks DEFAULT_WORLD_CONFIG 0 (fun _ _ => 0) 3 (-4)).blocks.getD 6
        []).getD 5 defaultBlock).y = (-4) * (DEFAULT_WORLD_CONFIG.blocksPerTile : ℤ) + ((6 : ℕ) : ℤ)) :=
  have h := generateChunk_coords DEFAULT_WORLD_CONFIG 0 (fun _ _ => 0) 0 0 3 (-4) 1 2 5 6
    (by decide) (by decide) (by decide) (by decide)
  ⟨⟨by decide, by decide, by decide, by decide⟩, h.1, h.2⟩

/-- C9 --- Palette lookup at the rendering interface: the `TILE_COLORS`
    literal, despite its exhaustive `Record<TileType, string[]>` annotation,
    has no entry for the generator-producible types `ruins`, `bunker`,
    `wasteland`, `canyon`, `dead_zone` and `infection_site`, so
    `getBlockColor('ruins', 0, 0, 0)` hits an `undefined` palette row (the
    source throws a `TypeError` reading `colors.length`; the model returns
    `none`) instead of producing a well-formed color string. -/
theorem getBlockColor_missing_entries :
    BiomeConfig.getBlockColor TileType.ruins 0 0 0 = none ∧
      BiomeConfig.TILE_COLORS TileType.ruins = none ∧
      BiomeConfig.TILE_COLORS TileType.bunker = none ∧
      BiomeConfig.TILE_COLORS TileType.wasteland = none ∧
      BiomeConfig.TILE_COLORS TileType.canyon = none ∧
      BiomeConfig.TILE_COLORS TileType.dead_zone = none ∧
      BiomeConfig.TILE_COLORS TileType.infection_site = none :=
  ⟨rfl, rfl, rfl, rfl, rfl, rfl, rfl⟩

/-! ## C1: memoization transparency -/

/-- A `Map` hit returns an entry of the cache. -/
lemma cacheGet_mem (k : (ℤ × Bool) × (ℤ × Bool) × ℤ) (c : NoiseGenerator.Cache) (v : ℚ)
    (h : NoiseGenerator.cacheGet k c = some v) : (k, v) ∈ c := by
  induction c with
  | nil => simp [NoiseGenerator.cacheGet] at h
  | cons e es ih =>
    rw [NoiseGenerator.cacheGet] at h
    by_cases he : e.1 = k
    · rw [if_pos he] at h
      have h2 : e.2 = v := Option.some.inj h
      exact List.mem_cons.mpr (Or.inl (by rw [← he, ← h2]))
    · rw [if_neg he] at h
      exact List.mem_cons_of_mem _ (ih h)

/-- Key lemma for the amended C1: if every entry of the cache is the cache-free
    value of some already-made call, and the calls are key-collision-compatible
    (equal rounded keys imply equal cache-free values), then the memoized
    `noise` returns exactly the cache-free recomputation for every queued call. -/
lemma runNoise_pure (seed : ℤ) (calls : List (ℚ × ℚ × ℤ))
    (H : ∀ p ∈ calls, ∀ q ∈ calls,
      NoiseGenerator.cacheKeyAt p = NoiseGenerator.cacheKeyAt q →
      NoiseGenerator.noisePureAt seed p = NoiseGenerator.noisePureAt seed q) :
    ∀ (qs : List (ℚ × ℚ × ℤ)) (c : NoiseGenerator.Cache), (∀ q ∈ qs, q ∈ calls) →
      (∀ e ∈ c, ∃ p ∈ calls,
        e.1 = NoiseGenerator.cacheKeyAt p ∧ e.2 = NoiseGenerator.noisePureAt seed p) →
      NoiseGenerator.runNoise seed c qs = qs.map (NoiseGenerator.noisePureAt seed) := by
  intro qs
  induction qs with
  | nil => intro c _ _; rfl
  | cons q qs ih =>
    intro c hqs hc
    have hq : q ∈ calls := hqs q (List.mem_cons_self _ _)
    rw [NoiseGenerator.runNoise, List.map_cons]
    unfold NoiseGenerator.noise
    cases hget : NoiseGenerator.cacheGet (NoiseGenerator.cacheKey q.1 q.2.1 q.2.2) c with
    | some v =>
      obtain ⟨p, hp, hk, hv⟩ := hc _ (cacheGet_mem _ _ _ hget)
      have hk' : NoiseGenerator.cacheKey q.1 q.2.1 q.2.2 = NoiseGenerator.cacheKeyAt p := hk
      have hv' : v = NoiseGenerator.noisePureAt seed p := hv
      have hpv : NoiseGenerator.noisePureAt seed p = NoiseGenerator.noisePureAt seed q :=
        H p hp q hq (by rw [← hk']; rfl)
      simp only [hget]
      rw [ih c (fun r hr => hqs r (List.mem_cons_of_mem _ hr)) hc]
      rw [hv', hpv]
    | none =>
      simp only [hget]
      have hc1 : ∀ e ∈ (if 10000 < c.length then c.drop (c.length / 2) else c) ++
          [(NoiseGenerator.cacheKey q.1 q.2.1 q.2.2, NoiseGenerator.noisePure seed q.1 q.2.1 q.2.2)],
          ∃ p ∈ calls,
            e.1 = NoiseGenerator.cacheKeyAt p ∧ e.2 = NoiseGenerator.noisePureAt seed p := by
        intro e he
        rcases List.mem_append.mp he with h1 | h2
        · apply hc
          by_cases hlen : 10000 < c.length
          · rw [if_pos hlen] at h1
            exact List.drop_subset _ _ h1
          · rw [if_neg hlen] at h1
            exact h1
        · rw [List.mem_singleton] at h2
          subst h2
          exact ⟨q, hq, rfl, rfl⟩
      rw [ih _ (fun r hr => hqs r (List.mem_cons_of_mem _ hr)) hc1]
      rfl

/-- C1 (amended) --- Memoization transparency without rounded-key collisions:
    the cache key rounds the coordinates to three decimals
    (`toFixed(3)`), so entries are shared between distinct sample points that
    round alike.  For every call sequence in which equal rounded keys only
    arise between points with equal cache-free noise values (in particular any
    sequence whose distinct queried points never share a rounded key --- as is
    the case for the per-channel sample lattices used by `generateChunk`,
    whose spacings all exceed the 0.001 rounding granularity), every call
    against a freshly cleared cache returns exactly the cache-free bilinear
    recomputation, so generation is deterministic. -/
theorem noise_memo_transparent (seed : ℤ) (calls : List (ℚ × ℚ × ℤ))
    (H : ∀ p ∈ calls, ∀ q ∈ calls,
      NoiseGenerator.cacheKeyAt p = NoiseGenerator.cacheKeyAt q →
      NoiseGenerator.noisePureAt seed p = NoiseGenerator.noisePureAt seed q) :
    NoiseGenerator.runNoise seed (NoiseGenerator.clearCache []) calls =
      calls.map (NoiseGenerator.noisePureAt seed) :=
  runNoise_pure seed calls H calls [] (fun _ hq => hq) (by intro e he; simp at he)

/-- C1 witness: the amended theorem applied to a one-call sequence. -/
theorem noise_memo_transparent_witness :
    (∀ p ∈ [((2 : ℚ), (3 : ℚ), (1000 : ℤ))], ∀ q ∈ [((2 : ℚ), (3 : ℚ), (1000 : ℤ))],
      NoiseGenerator.cacheKeyAt p = NoiseGenerator.cacheKeyAt q →
      NoiseGenerator.noisePureAt 5 p = NoiseGenerator.noisePureAt 5 q) ∧
    NoiseGenerator.runNoise 5 (NoiseGenerator.clearCache []) [((2 : ℚ), (3 : ℚ), (1000 : ℤ))] =
      [((2 : ℚ), (3 : ℚ), (1000 : ℤ))].map (NoiseGenerator.noisePureAt 5) := by
  have hH : ∀ p ∈ [((2 : ℚ), (3 : ℚ), (1000 : ℤ))], ∀ q ∈ [((2 : ℚ), (3 : ℚ), (1000 : ℤ))],
      NoiseGenerator.cacheKeyAt p = NoiseGenerator.cacheKeyAt q →
      NoiseGenerator.noisePureAt 5 p = NoiseGenerator.noisePureAt 5 q := by
    intro p hp q hq _
    rw [List.mem_singleton] at hp hq
    rw [hp, hq]
  exact ⟨hH, noise_memo_transparent 5 _ hH⟩

/-- Bilinear evaluation of `noisePure` with the floors resolved. -/
lemma noisePure_eval (seed : ℤ) (x y : ℚ) (offset X Y : ℤ) (hX : ⌊x⌋ = X) (hY : ⌊y⌋ = Y) :
    NoiseGenerator.noisePure seed x y offset =
      (NoiseGenerator.hash seed X Y offset +
          NoiseGenerator.fade (x - X) *
            (NoiseGenerator.hash seed (X + 1) Y offset - NoiseGenerator.hash seed X Y offset)) +
        NoiseGenerator.fade (y - Y) *
          ((NoiseGenerator.hash seed X (Y + 1) offset +
              NoiseGenerator.fade (x - X) *
                (NoiseGenerator.hash seed (X + 1) (Y + 1) offset -
                  NoiseGenerator.hash seed X (Y + 1) offset)) -
            (NoiseGenerator.hash seed X Y offset +
              NoiseGenerator.fade (x - X) *
                (NoiseGenerator.hash seed (X + 1) Y offset -
                  NoiseGenerator.hash seed X Y offset))) := by
  unfold NoiseGenerator.noisePure
  rw [hX, hY]

/-- The lattice-corner hashes of channel 0 around the origin for seed 0. -/
lemma hash_corner_vals :
    NoiseGenerator.hash 0 0 0 0 = -1 ∧
      NoiseGenerator.hash 0 1 0 0 = -2077695059 / 2147483647 ∧
      NoiseGenerator.hash 0 0 1 0 = 156977227 / 2147483647 ∧
      NoiseGenerator.hash 0 1 1 0 = -740012783 / 2147483647 := by
  refine ⟨?_, ?_, ?_, ?_⟩ <;>
    · unfold NoiseGenerator.hash
      first
        | rw [show NoiseGenerator.hashInt 0 0 0 0 = 0 from by decide]
        | rw [show NoiseGenerator.hashInt 0 1 0 0 = 34894294 from by decide]
        | rw [show NoiseGenerator.hashInt 0 0 1 0 = 1152230437 from by decide]
        | rw [show NoiseGenerator.hashInt 0 1 1 0 = 703735432 from by decide]
      norm_num

/-- The cache-free value at `(0.0001, 0)` on channel 0, seed 0. -/
lemma noiseVal_1 :
    NoiseGenerator.noisePure 0 0.0001 0 0 =
      -26843545587491277734983683559 / 26843545587500000000000000000 := by
  rw [noisePure_eval 0 0.0001 0 0 0 0 (by norm_num) (by norm_num)]
  obtain ⟨h00, h10, h01, h11⟩ := hash_corner_vals
  norm_num [h00, h10, h01, h11, NoiseGenerator.fade]

/-- The cache-free value at `(0.0002, 0)` on channel 0, seed 0. -/
lemma noiseVal_2 :
    NoiseGenerator.noisePure 0 0.0002 0 0 =
      -838860799607194760840671059 / 838860799609375000000000000 := by
  rw [noisePure_eval 0 0.0002 0 0 0 0 (by norm_num) (by norm_num)]
  obtain ⟨h00, h10, h01, h11⟩ := hash_corner_vals
  norm_num [h00, h10, h01, h11, NoiseGenerator.fade]

/-- The `toFixed(3)` cache keys of `(0.0001, 0, 0)` and `(0.0002, 0, 0)`
    coincide: both round to `"0.000,0.000,0"`. -/
lemma cacheKey_collision :
    NoiseGenerator.cacheKey 0.0001 0 0 = ((0, false), (0, false), 0) ∧
      NoiseGenerator.cacheKey 0.0002 0 0 = ((0, false), (0, false), 0) := by
  constructor <;>
    · unfold NoiseGenerator.cacheKey NoiseGenerator.toFixed3
      norm_num [abs_of_nonneg]

/-- C1 counterexample: the call sequence `noise(0.0001, 0, 0)` then
    `noise(0.0002, 0, 0)` against a fresh cache returns the value computed for
    `x = 0.0001` **twice** --- the 3-decimal rounded cache key of `0.0002`
    collides with that of `0.0001` --- while the cache-free recomputation at
    `x = 0.0002` differs, so `noise` does not always equal the cache-free
    bilinear hash and memoization is not transparent as claimed. -/
theorem noise_memo_cex :
    NoiseGenerator.runNoise 0 [] [(0.0001, 0, 0), (0.0002, 0, 0)] =
        [NoiseGenerator.noisePure 0 0.0001 0 0, NoiseGenerator.noisePure 0 0.0001 0 0] ∧
      NoiseGenerator.noisePure 0 0.0001 0 0 ≠ NoiseGenerator.noisePure 0 0.0002 0 0 := by
  obtain ⟨hk1, hk2⟩ := cacheKey_collision
  constructor
  · simp only [NoiseGenerator.runNoise, NoiseGenerator.noise, hk1, hk2,
      NoiseGenerator.cacheGet, List.length_nil, List.nil_append]
    norm_num
  · rw [noiseVal_1, noiseVal_2]
    norm_num
